import Mathlib

/-!
Linux runner entry point, `linux/runner/main.cc`.

The entry point is three statements long:

    int main(int argc, char **argv) {
      setenv("GDK_BACKEND", "wayland", 1);
      g_autoptr(MyApplication) app = my_application_new();
      return g_application_run(G_APPLICATION(app), argc, argv);
    }

`main` is embedded as a state-passing function over the process environment
and a log of the calls it makes.  What `main` calls but does not define (the
memory behaviour of libc inside `setenv`, the application constructor, the
run loop of the toolkit) is a parameter of the embedding, gathered in `World`;
every theorem quantifies over all of them.

`app` is a `g_autoptr` variable, that is, a variable with the compiler's
cleanup attribute: its cleanup runs whenever the scope of `main` is left, both
when `main` returns and when the run loop leaves the frame of `main` by forced
stack unwinding (the calling thread is ended with `pthread_exit` or cancelled).
The cleanup does not run while control stays inside the run loop, when the loop
blocks for ever or ends the process there (`abort`, `exit`).
-/

namespace KolibriRunner

/-! ## Process environment -/

/-- The environment block: `NAME=VALUE` entries in their order in `environ`. -/
abbrev Env := List (String × String)

/-- A C pointer to an object; `0` is the null pointer. -/
abbrev Ptr := Nat

/-- The null pointer. -/
def NULL : Ptr := 0

/-- The libc call `getenv(name)`: the value of the first entry called `name`,
if any. -/
def getenv : Env → String → Option String
  | [], _ => none
  | (k, v) :: rest, name => if k = name then some v else getenv rest name

/-- Store `name=value`: the first entry called `name` is replaced in place,
and when there is none the entry is added at the end of the block. -/
def envStore : Env → String → String → Env
  | [], name, value => [(name, value)]
  | (k, v) :: rest, name, value =>
      if k = name then (name, value) :: rest
      else (k, v) :: envStore rest name value

/-- The libc call `setenv(name, value, overwrite)`, returning the status and the
new environment.  The call fails with `-1` and leaves the environment alone when
the name is empty or contains `=` (EINVAL) or when memory is exhausted
(ENOMEM, `enomem = true`).  Otherwise it returns `0`; an existing entry is kept
when `overwrite` is zero and replaced when it is not. -/
def setenv (enomem : Bool) (env : Env) (name value : String) (overwrite : Int) :
    Int × Env :=
  if name.toList = [] ∨ '=' ∈ name.toList then (-1, env)
  else if enomem then (-1, env)
  else
    match getenv env name with
    | some _ => if overwrite = 0 then (0, env) else (0, envStore env name value)
    | none => (0, envStore env name value)

/-! ## Calls made by the entry point -/

/-- One call made by `main`, or one return it observes, in program order.
Calls to the collaborators record the environment they were made in. -/
inductive Event where
  /-- Call of `setenv(name, value, overwrite)`, which returned `status`. -/
  | setenv (name value : String) (overwrite : Int) (status : Int)
  /-- Call of `my_application_new()` in `env`, which returned `app`. -/
  | my_application_new (env : Env) (app : Ptr)
  /-- Entry into `g_application_run(app, argc, argv)` in `env`. -/
  | g_application_run (env : Env) (app : Ptr) (argc : Int) (argv : List String)
  /-- Return of `g_application_run` with `status`. -/
  | g_application_run_returned (status : Int)
  /-- Exit from `g_application_run` by forced unwinding of the stack: control
  leaves the frame of `main` without a return of the call. -/
  | g_application_run_unwound
  /-- Release of `app` (`g_object_unref`) by the scope-exit cleanup of `g_autoptr`. -/
  | g_object_unref (app : Ptr)
  /-- Return of `main` with `status`. -/
  | main_return (status : Int)
  deriving DecidableEq

/-- Is the event a `setenv` call? -/
def Event.isSetenv : Event → Bool
  | .setenv _ _ _ _ => true
  | _ => false

/-- Is the event a call of the application constructor? -/
def Event.isNew : Event → Bool
  | .my_application_new _ _ => true
  | _ => false

/-- Is the event an entry into the run loop? -/
def Event.isRun : Event → Bool
  | .g_application_run _ _ _ _ => true
  | _ => false

/-- Is the event a release of an object? -/
def Event.isUnref : Event → Bool
  | .g_object_unref _ => true
  | _ => false

/-- The collaborators of `main`, which this file does not define.

* `enomem`: whether libc runs out of memory inside `setenv`;
* `my_application_new`: the constructor, which may read and change the
  environment and returns a pointer (possibly null);
* `g_application_run`: the run loop; `none` means that the call never
  returns, `some (status, env)` that it returns `status` leaving `env`;
* `g_application_run_unwinds`: how a run loop that never returns behaves,
  read only when `g_application_run` gives `none`: `none` means that control
  stays inside the call for ever (the loop blocks, or the process is ended
  there), `some env` that the call is left by forced unwinding of the stack,
  leaving `env`. -/
structure World where
  enomem : Bool
  my_application_new : Env → Ptr × Env
  g_application_run : Env → Ptr → Int → List String → Option (Int × Env)
  g_application_run_unwinds : Env → Ptr → Int → List String → Option Env

/-- How control comes out of a call, as far as the caller's scope goes. -/
inductive Control where
  /-- The call returned `status`. -/
  | returned (status : Int)
  /-- Control never leaves the call. -/
  | stuck
  /-- The stack is being unwound through the caller's frame. -/
  | unwinding
  deriving DecidableEq

/-- What `main` threads through its statements: the environment and the log. -/
structure State where
  env : Env
  trace : List Event
  deriving DecidableEq

/-- Append an event to the log. -/
def emit (e : Event) (s : State) : State :=
  { s with trace := s.trace ++ [e] }

/-- The statement `setenv(name, value, overwrite)` executed in state `s`. -/
def call_setenv (w : World) (name value : String) (overwrite : Int) (s : State) :
    Int × State :=
  let r := setenv w.enomem s.env name value overwrite
  (r.1, emit (.setenv name value overwrite r.1) { s with env := r.2 })

/-- The call `my_application_new()` executed in state `s`. -/
def call_my_application_new (w : World) (s : State) : Ptr × State :=
  let r := w.my_application_new s.env
  (r.1, emit (.my_application_new s.env r.1) { s with env := r.2 })

/-- The cast `G_APPLICATION(app)`: the same pointer at another static type. -/
def G_APPLICATION (app : Ptr) : Ptr := app

/-- The call `g_application_run(app, argc, argv)` executed in state `s`.
The entry is logged first; the return is logged only if the loop returns, and
an exit by unwinding only if the loop is left that way. -/
def call_g_application_run (w : World) (app : Ptr) (argc : Int) (argv : List String)
    (s : State) : Control × State :=
  let s1 := emit (.g_application_run s.env app argc argv) s
  match w.g_application_run s.env app argc argv with
  | some (status, env1) =>
      (.returned status,
       emit (.g_application_run_returned status) { s1 with env := env1 })
  | none =>
      match w.g_application_run_unwinds s.env app argc argv with
      | none => (.stuck, s1)
      | some env1 => (.unwinding, emit .g_application_run_unwound { s1 with env := env1 })

/-- Scope exit of a `g_autoptr` variable holding `app`: a non-null pointer is
released with `g_object_unref`, a null one is left alone. -/
def glib_autoptr_cleanup (app : Ptr) (s : State) : State :=
  if app = NULL then s else emit (.g_object_unref app) s

/-- The state of `main` after its first statement,
`setenv("GDK_BACKEND", "wayland", 1);`, together with the status of the call
(which `main` discards). -/
def main_setenv_step (w : World) (env : Env) : Int × State :=
  call_setenv w "GDK_BACKEND" "wayland" 1 { env := env, trace := [] }

/-- The state of `main` after its second statement,
`g_autoptr(MyApplication) app = my_application_new();`, together with `app`. -/
def main_construct_step (w : World) (env : Env) : Ptr × State :=
  call_my_application_new w (main_setenv_step w env).2

/-- The entry point.  Returns the exit status (`none` when `main` does not
return: the run loop never returns) and the final state. -/
def main (w : World) (argc : Int) (argv : List String) (env : Env) :
    Option Int × State :=
  -- setenv("GDK_BACKEND", "wayland", 1);
  -- g_autoptr(MyApplication) app = my_application_new();
  let app := (main_construct_step w env).1
  -- return g_application_run(G_APPLICATION(app), argc, argv);
  match call_g_application_run w (G_APPLICATION app) argc argv
      (main_construct_step w env).2 with
  | (.returned status, s3) =>
      -- the value is computed, `app` goes out of scope, `main` returns
      (some status, emit (.main_return status) (glib_autoptr_cleanup app s3))
  | (.unwinding, s3) =>
      -- the frame of `main` is unwound: `app` goes out of scope, no return
      (none, glib_autoptr_cleanup app s3)
  | (.stuck, s3) =>
      -- control stays in the run loop: the scope of `app` is never left
      (none, s3)

/-! ## Sample collaborators -/

/-- A world in which everything succeeds: the constructor returns object `7`
and the run loop returns `status`. -/
def quietWorld (status : Int) : World :=
  { enomem := false
    my_application_new := fun env => (7, env)
    g_application_run := fun env _ _ _ => some (status, env)
    g_application_run_unwinds := fun _ _ _ _ => none }

/-- A world whose run loop never returns: control stays inside it. -/
def stuckWorld : World :=
  { enomem := false
    my_application_new := fun env => (7, env)
    g_application_run := fun _ _ _ _ => none
    g_application_run_unwinds := fun _ _ _ _ => none }

/-- A world whose run loop never returns and is left by forced unwinding of
the stack (the thread of `main` is ended from inside the loop). -/
def unwindingWorld : World :=
  { enomem := false
    my_application_new := fun env => (7, env)
    g_application_run := fun _ _ _ _ => none
    g_application_run_unwinds := fun env _ _ _ => some env }

/-- A world in which `setenv` runs out of memory and everything else succeeds:
the constructor returns object `7` and the run loop returns `0`. -/
def noMemoryWorld : World :=
  { enomem := true
    my_application_new := fun env => (7, env)
    g_application_run := fun env _ _ _ => some (0, env)
    g_application_run_unwinds := fun _ _ _ _ => none }

/-- A world in which `setenv` runs out of memory and the constructor yields
a null pointer; the run loop gives `1` back. -/
def brokenWorld : World :=
  { enomem := true
    my_application_new := fun env => (NULL, env)
    g_application_run := fun env _ _ _ => some (1, env)
    g_application_run_unwinds := fun _ _ _ _ => none }

/-- An environment that already selects another backend. -/
def x11Env : Env := [("HOME", "/root"), ("GDK_BACKEND", "x11"), ("LANG", "C")]

/-- The environment `x11Env` after `GDK_BACKEND` has been overwritten. -/
def waylandEnv : Env := [("HOME", "/root"), ("GDK_BACKEND", "wayland"), ("LANG", "C")]

/-! ## The environment primitives -/

/-- The variable name used by `main` is accepted by `setenv`. -/
theorem gdk_backend_name_valid :
    ¬ ("GDK_BACKEND".toList = [] ∨ '=' ∈ "GDK_BACKEND".toList) := by
  decide

/-- Reading back the name just stored gives the stored value. -/
theorem getenv_envStore_same (env : Env) (name value : String) :
    getenv (envStore env name value) name = some value := by
  induction env with
  | nil => simp [envStore, getenv]
  | cons e rest ih =>
    obtain ⟨k, v⟩ := e
    by_cases hk : k = name
    · simp [envStore, getenv, hk]
    · simp [envStore, getenv, hk, ih]

/-- Storing one name does not change what any other name reads. -/
theorem getenv_envStore_other (env : Env) (name value other : String)
    (h : other ≠ name) :
    getenv (envStore env name value) other = getenv env other := by
  induction env with
  | nil => simp [envStore, getenv, Ne.symm h]
  | cons e rest ih =>
    obtain ⟨k, v⟩ := e
    by_cases hk : k = name
    · subst hk
      simp [envStore, getenv, Ne.symm h]
    · simp [envStore, getenv, hk, ih]

/-- What `setenv("GDK_BACKEND", "wayland", 1)` does, by memory outcome. -/
theorem setenv_gdk_backend (enomem : Bool) (env : Env) :
    setenv enomem env "GDK_BACKEND" "wayland" 1 =
      if enomem then (-1, env) else (0, envStore env "GDK_BACKEND" "wayland") := by
  unfold setenv
  rw [if_neg gdk_backend_name_valid]
  cases enomem
  · cases getenv env "GDK_BACKEND" <;> simp
  · simp

/-! ## The shape of a run of `main` -/

/-- The log after the first two statements: the `setenv` call, then the
constructor call, which sees the environment left by `setenv`. -/
theorem main_construct_step_trace (w : World) (env : Env) :
    (main_construct_step w env).2.trace =
      [Event.setenv "GDK_BACKEND" "wayland" 1 (main_setenv_step w env).1,
       Event.my_application_new (main_setenv_step w env).2.env
         (main_construct_step w env).1] :=
  rfl

/-- A run of `main` whose run loop never returns and keeps control. -/
theorem main_of_stuck (w : World) (argc : Int) (argv : List String) (env : Env)
    (h : w.g_application_run (main_construct_step w env).2.env
          (G_APPLICATION (main_construct_step w env).1) argc argv = none)
    (hu : w.g_application_run_unwinds (main_construct_step w env).2.env
          (G_APPLICATION (main_construct_step w env).1) argc argv = none) :
    main w argc argv env =
      (none,
       State.mk (main_construct_step w env).2.env
        [Event.setenv "GDK_BACKEND" "wayland" 1 (main_setenv_step w env).1,
         Event.my_application_new (main_setenv_step w env).2.env
           (main_construct_step w env).1,
         Event.g_application_run (main_construct_step w env).2.env
           (main_construct_step w env).1 argc argv]) := by
  simp only [main, call_g_application_run, h, hu, emit, main_construct_step_trace]
  rfl

/-- A run of `main` whose run loop never returns and is left by unwinding,
leaving `env1`. -/
theorem main_of_unwound (w : World) (argc : Int) (argv : List String) (env : Env)
    (env1 : Env)
    (h : w.g_application_run (main_construct_step w env).2.env
          (G_APPLICATION (main_construct_step w env).1) argc argv = none)
    (hu : w.g_application_run_unwinds (main_construct_step w env).2.env
          (G_APPLICATION (main_construct_step w env).1) argc argv = some env1) :
    main w argc argv env =
      (none,
       State.mk env1
        ([Event.setenv "GDK_BACKEND" "wayland" 1 (main_setenv_step w env).1,
          Event.my_application_new (main_setenv_step w env).2.env
            (main_construct_step w env).1,
          Event.g_application_run (main_construct_step w env).2.env
            (main_construct_step w env).1 argc argv,
          Event.g_application_run_unwound]
         ++ (if (main_construct_step w env).1 = NULL then []
             else [Event.g_object_unref (main_construct_step w env).1]))) := by
  simp only [main, call_g_application_run, h, hu, emit, main_construct_step_trace,
    glib_autoptr_cleanup]
  by_cases hp : (main_construct_step w env).1 = NULL
  · simp [hp, G_APPLICATION, emit]
  · simp [hp, G_APPLICATION, emit]

/-- A run of `main` whose run loop returns `status`, leaving `env1`. -/
theorem main_of_returned (w : World) (argc : Int) (argv : List String) (env : Env)
    (status : Int) (env1 : Env)
    (h : w.g_application_run (main_construct_step w env).2.env
          (G_APPLICATION (main_construct_step w env).1) argc argv
            = some (status, env1)) :
    main w argc argv env =
      (some status,
       State.mk env1
        ([Event.setenv "GDK_BACKEND" "wayland" 1 (main_setenv_step w env).1,
          Event.my_application_new (main_setenv_step w env).2.env
            (main_construct_step w env).1,
          Event.g_application_run (main_construct_step w env).2.env
            (main_construct_step w env).1 argc argv,
          Event.g_application_run_returned status]
         ++ (if (main_construct_step w env).1 = NULL then []
             else [Event.g_object_unref (main_construct_step w env).1])
         ++ [Event.main_return status])) := by
  simp only [main, call_g_application_run, h, emit, main_construct_step_trace,
    glib_autoptr_cleanup]
  by_cases hp : (main_construct_step w env).1 = NULL
  · simp [hp, G_APPLICATION, emit]
  · simp [hp, G_APPLICATION, emit]

/-- The calls that every run of `main` makes first, whatever the world: the
log starts with the `setenv` call, the constructor call and the entry into the
run loop, in this order. -/
theorem main_trace_take3 (w : World) (argc : Int) (argv : List String) (env : Env) :
    (main w argc argv env).2.trace.take 3 =
      [Event.setenv "GDK_BACKEND" "wayland" 1 (main_setenv_step w env).1,
       Event.my_application_new (main_setenv_step w env).2.env
         (main_construct_step w env).1,
       Event.g_application_run (main_construct_step w env).2.env
         (main_construct_step w env).1 argc argv] := by
  cases h : w.g_application_run (main_construct_step w env).2.env
      (G_APPLICATION (main_construct_step w env).1) argc argv with
  | none =>
    cases hu : w.g_application_run_unwinds (main_construct_step w env).2.env
        (G_APPLICATION (main_construct_step w env).1) argc argv with
    | none => rw [main_of_stuck w argc argv env h hu]; rfl
    | some env1 => rw [main_of_unwound w argc argv env env1 h hu]; rfl
  | some p =>
    obtain ⟨status, env1⟩ := p
    rw [main_of_returned w argc argv env status env1 h]
    rfl

/-- Filtering the log of `main` with a predicate that rejects the events
that follow the entry into the run loop (return of the run loop, exit by
unwinding, release, return of `main`) keeps what it keeps of the first three
events. -/
theorem main_trace_filter (w : World) (argc : Int) (argv : List String) (env : Env)
    (p : Event → Bool)
    (h1 : ∀ status, p (Event.g_application_run_returned status) = false)
    (h2 : ∀ app, p (Event.g_object_unref app) = false)
    (h3 : ∀ status, p (Event.main_return status) = false)
    (h4 : p Event.g_application_run_unwound = false) :
    (main w argc argv env).2.trace.filter p =
      [Event.setenv "GDK_BACKEND" "wayland" 1 (main_setenv_step w env).1,
       Event.my_application_new (main_setenv_step w env).2.env
         (main_construct_step w env).1,
       Event.g_application_run (main_construct_step w env).2.env
         (main_construct_step w env).1 argc argv].filter p := by
  cases h : w.g_application_run (main_construct_step w env).2.env
      (G_APPLICATION (main_construct_step w env).1) argc argv with
  | none =>
    cases hu : w.g_application_run_unwinds (main_construct_step w env).2.env
        (G_APPLICATION (main_construct_step w env).1) argc argv with
    | none => rw [main_of_stuck w argc argv env h hu]
    | some env1 =>
      rw [main_of_unwound w argc argv env env1 h hu]
      by_cases hp : (main_construct_step w env).1 = NULL
      · simp [hp, List.filter_cons, h4]
      · simp [hp, List.filter_cons, h2, h4]
  | some q =>
    obtain ⟨status, env1⟩ := q
    rw [main_of_returned w argc argv env status env1 h]
    by_cases hp : (main_construct_step w env).1 = NULL
    · simp [hp, List.filter_cons, h1, h3]
    · simp [hp, List.filter_cons, h1, h2, h3]

/-! ## The entry point: exit status -/

/-- C1: whenever the run-loop call made by `main` returns an integer `r`
(any integer: zero, positive or negative), `main` returns exactly `r`, and the
last thing it does is return `r`; the status is not remapped, clamped or
replaced by a default. -/
theorem main_returns_run_status (w : World) (argc : Int) (argv : List String)
    (env : Env) (r : Int) (env1 : Env)
    (h : w.g_application_run (main_construct_step w env).2.env
          (G_APPLICATION (main_construct_step w env).1) argc argv = some (r, env1)) :
    (main w argc argv env).1 = some r ∧
    (main w argc argv env).2.trace.getLast? = some (Event.main_return r) := by
  rw [main_of_returned w argc argv env r env1 h]
  by_cases hp : (main_construct_step w env).1 = NULL
  · simp [hp]
  · simp [hp]

/-- Witness of C1: a run loop that returns `-3` on an `x11` environment. -/
theorem main_returns_run_status_witness :
    (quietWorld (-3)).g_application_run
        (main_construct_step (quietWorld (-3)) x11Env).2.env
        (G_APPLICATION (main_construct_step (quietWorld (-3)) x11Env).1)
        2 ["kolibri", "--debug"] = some (-3, waylandEnv) ∧
    ((main (quietWorld (-3)) 2 ["kolibri", "--debug"] x11Env).1 = some (-3) ∧
     (main (quietWorld (-3)) 2 ["kolibri", "--debug"] x11Env).2.trace.getLast?
        = some (Event.main_return (-3))) :=
  ⟨by decide,
   main_returns_run_status (quietWorld (-3)) 2 ["kolibri", "--debug"] x11Env (-3)
     waylandEnv (by decide)⟩

/-! ## The entry point: order of effects -/

/-- C2 (amended): in every run of `main`, for every world, environment and
argument vector, the calls to `setenv`, to the constructor and into the run
loop are exactly three and come in this order: the write of `GDK_BACKEND` to
`"wayland"` first, then the construction, then the run loop.  The `setenv`
call returns `0` unless libc runs out of memory, and then `-1`.  The
constructor is called in the environment that the `setenv` call left: when
the call returned `0` that environment binds `GDK_BACKEND` to `"wayland"`,
and when it failed `GDK_BACKEND` reads there as it did initially. -/
theorem setenv_precedes_construction (w : World) (argc : Int) (argv : List String)
    (env : Env) :
    (main w argc argv env).2.trace.filter
        (fun e => e.isSetenv || e.isNew || e.isRun) =
      [Event.setenv "GDK_BACKEND" "wayland" 1 (main_setenv_step w env).1,
       Event.my_application_new (main_setenv_step w env).2.env
         (main_construct_step w env).1,
       Event.g_application_run (main_construct_step w env).2.env
         (main_construct_step w env).1 argc argv] ∧
    (main w argc argv env).2.trace.head? =
      some (Event.setenv "GDK_BACKEND" "wayland" 1 (main_setenv_step w env).1) ∧
    (main_setenv_step w env).1 = (if w.enomem then -1 else 0) ∧
    getenv (main_setenv_step w env).2.env "GDK_BACKEND" =
      (if (main_setenv_step w env).1 = 0 then some "wayland"
       else getenv env "GDK_BACKEND") := by
  refine ⟨?_, ?_, ?_, ?_⟩
  · rw [main_trace_filter w argc argv env _ (fun _ => rfl) (fun _ => rfl) (fun _ => rfl) rfl]
    rfl
  · have h := main_trace_take3 w argc argv env
    cases ht : (main w argc argv env).2.trace with
    | nil => rw [ht] at h; simp at h
    | cons a rest =>
      rw [ht] at h
      simp only [List.take_succ_cons, List.cons.injEq] at h
      simp [h.1]
  · simp only [main_setenv_step, call_setenv, setenv_gdk_backend]
    cases w.enomem <;> rfl
  · simp only [main_setenv_step, call_setenv, emit, setenv_gdk_backend]
    cases w.enomem
    · simp [getenv_envStore_same]
    · simp

/-- Counterexample to C2 as stated: when `setenv` runs out of memory, `main`
still makes the call first (status `-1`) and then constructs the application,
in an environment where `GDK_BACKEND` is `"x11"`, not `"wayland"`. -/
theorem construction_without_wayland_counterexample :
    (main noMemoryWorld 1 ["kolibri"] x11Env).2.trace =
      [Event.setenv "GDK_BACKEND" "wayland" 1 (-1),
       Event.my_application_new x11Env 7,
       Event.g_application_run x11Env 7 1 ["kolibri"],
       Event.g_application_run_returned 0,
       Event.g_object_unref 7,
       Event.main_return 0] ∧
    getenv x11Env "GDK_BACKEND" = some "x11" ∧
    getenv x11Env "GDK_BACKEND" ≠ some "wayland" := by
  decide

/-! ## The entry point: the environment write -/

/-- C3: for every initial environment (with `GDK_BACKEND` unset or bound to
anything), if the `setenv` call of `main` succeeds then the environment after
that statement binds `GDK_BACKEND` to exactly `"wayland"`, and the call that
`main` logged is `setenv("GDK_BACKEND", "wayland", 1)` with status `0`. -/
theorem setenv_step_binds_wayland (w : World) (env : Env)
    (h : (main_setenv_step w env).1 = 0) :
    getenv (main_setenv_step w env).2.env "GDK_BACKEND" = some "wayland" ∧
    (main_setenv_step w env).2.trace = [Event.setenv "GDK_BACKEND" "wayland" 1 0] := by
  simp only [main_setenv_step, call_setenv, emit, setenv_gdk_backend] at h ⊢
  cases hm : w.enomem
  · simp [getenv_envStore_same]
  · rw [hm] at h
    simp at h

/-- Witness of C3: `GDK_BACKEND=x11` is overwritten. -/
theorem setenv_step_binds_wayland_witness :
    (main_setenv_step (quietWorld 0) x11Env).1 = 0 ∧
    (getenv x11Env "GDK_BACKEND" = some "x11" ∧
     (getenv (main_setenv_step (quietWorld 0) x11Env).2.env "GDK_BACKEND"
        = some "wayland" ∧
      (main_setenv_step (quietWorld 0) x11Env).2.trace
        = [Event.setenv "GDK_BACKEND" "wayland" 1 0])) :=
  ⟨by decide, by decide, setenv_step_binds_wayland (quietWorld 0) x11Env (by decide)⟩

/-! ## The entry point: construction and run loop -/

/-- C4: in every run of `main` the run loop is entered exactly once, and that
one call receives the pointer returned by the constructor call of the same
run together with the `argc` and the `argv` that `main` was given, element for
element. -/
theorem run_loop_entered_once_with_arguments (w : World) (argc : Int)
    (argv : List String) (env : Env) :
    (main w argc argv env).2.trace.filter Event.isRun =
      [Event.g_application_run (main_construct_step w env).2.env
         (w.my_application_new (main_setenv_step w env).2.env).1 argc argv] ∧
    (main w argc argv env).2.trace.countP Event.isRun = 1 ∧
    Event.my_application_new (main_setenv_step w env).2.env
      (w.my_application_new (main_setenv_step w env).2.env).1
        ∈ (main w argc argv env).2.trace := by
  have hf : (main w argc argv env).2.trace.filter Event.isRun =
      [Event.g_application_run (main_construct_step w env).2.env
         (w.my_application_new (main_setenv_step w env).2.env).1 argc argv] := by
    rw [main_trace_filter w argc argv env _ (fun _ => rfl) (fun _ => rfl) (fun _ => rfl) rfl]
    rfl
  refine ⟨hf, ?_, ?_⟩
  · rw [List.countP_eq_length_filter, hf]
    rfl
  · have h := main_trace_take3 w argc argv env
    have hm : Event.my_application_new (main_setenv_step w env).2.env
        (w.my_application_new (main_setenv_step w env).2.env).1
          ∈ (main w argc argv env).2.trace.take 3 := by
      rw [h]
      simp [main_construct_step, call_my_application_new]
    exact List.mem_of_mem_take hm

/-- C5: in every run of `main`, whatever the world, the environment, the
arguments and the outcome of the run loop, the constructor is called exactly
once. -/
theorem constructor_called_once (w : World) (argc : Int) (argv : List String)
    (env : Env) :
    (main w argc argv env).2.trace.countP Event.isNew = 1 ∧
    (main w argc argv env).2.trace.filter Event.isNew =
      [Event.my_application_new (main_setenv_step w env).2.env
         (main_construct_step w env).1] := by
  have hf : (main w argc argv env).2.trace.filter Event.isNew =
      [Event.my_application_new (main_setenv_step w env).2.env
         (main_construct_step w env).1] := by
    rw [main_trace_filter w argc argv env _ (fun _ => rfl) (fun _ => rfl) (fun _ => rfl) rfl]
    rfl
  refine ⟨?_, hf⟩
  rw [List.countP_eq_length_filter, hf]
  rfl

/-! ## The entry point: release of the application object -/

/-- C6: in every run of `main` in which the constructor produced an object
(a non-null pointer) and the run loop returns a status `r`, the whole log is:
`setenv`, construction, entry into the run loop, return of the run loop,
release of the constructed object, return of `main`.  So the object is
released exactly once, after the run loop has returned and before `main`
returns, and nothing else is ever released. -/
theorem app_released_once_after_run (w : World) (argc : Int)
    (argv : List String) (env : Env) (r : Int) (env1 : Env)
    (h : w.g_application_run (main_construct_step w env).2.env
          (G_APPLICATION (main_construct_step w env).1) argc argv = some (r, env1))
    (happ : (main_construct_step w env).1 ≠ NULL) :
    (main w argc argv env).2.trace =
      [Event.setenv "GDK_BACKEND" "wayland" 1 (main_setenv_step w env).1,
       Event.my_application_new (main_setenv_step w env).2.env
         (main_construct_step w env).1,
       Event.g_application_run (main_construct_step w env).2.env
         (main_construct_step w env).1 argc argv,
       Event.g_application_run_returned r,
       Event.g_object_unref (main_construct_step w env).1,
       Event.main_return r] ∧
    (main w argc argv env).2.trace.countP Event.isUnref = 1 ∧
    (main w argc argv env).2.trace.filter Event.isUnref =
      [Event.g_object_unref (main_construct_step w env).1] := by
  rw [main_of_returned w argc argv env r env1 h]
  simp only [if_neg happ]
  exact ⟨rfl, rfl, rfl⟩

/-- Witness of C6: object `7` is released once, between the return of the run
loop and the return of `main`. -/
theorem app_released_once_after_run_witness :
    (quietWorld 0).g_application_run
        (main_construct_step (quietWorld 0) x11Env).2.env
        (G_APPLICATION (main_construct_step (quietWorld 0) x11Env).1)
        1 ["kolibri"] = some (0, waylandEnv) ∧
    (main_construct_step (quietWorld 0) x11Env).1 ≠ NULL ∧
    ((main (quietWorld 0) 1 ["kolibri"] x11Env).2.trace =
      [Event.setenv "GDK_BACKEND" "wayland" 1
         (main_setenv_step (quietWorld 0) x11Env).1,
       Event.my_application_new (main_setenv_step (quietWorld 0) x11Env).2.env
         (main_construct_step (quietWorld 0) x11Env).1,
       Event.g_application_run (main_construct_step (quietWorld 0) x11Env).2.env
         (main_construct_step (quietWorld 0) x11Env).1 1 ["kolibri"],
       Event.g_application_run_returned 0,
       Event.g_object_unref (main_construct_step (quietWorld 0) x11Env).1,
       Event.main_return 0] ∧
     (main (quietWorld 0) 1 ["kolibri"] x11Env).2.trace.countP Event.isUnref = 1 ∧
     (main (quietWorld 0) 1 ["kolibri"] x11Env).2.trace.filter Event.isUnref =
       [Event.g_object_unref (main_construct_step (quietWorld 0) x11Env).1]) :=
  ⟨by decide, by decide,
   app_released_once_after_run (quietWorld 0) 1 ["kolibri"] x11Env 0 waylandEnv
     (by decide) (by decide)⟩

/-! ## The entry point: a run loop that never returns -/

/-- C7 (amended): if the run-loop call made by `main` never returns, then
`main` never returns either, and its whole log is the `setenv` call, the
construction and the entry into the run loop, followed by nothing when control
stays inside the run loop, and by the exit by unwinding and the scope-exit
release of the constructed object (if it is not null) when the run loop is
left by forced unwinding of the stack.  In both cases there is no second
environment write and no return of `main`. -/
theorem run_loop_never_returns_effects (w : World) (argc : Int)
    (argv : List String) (env : Env)
    (h : w.g_application_run (main_construct_step w env).2.env
          (G_APPLICATION (main_construct_step w env).1) argc argv = none) :
    (main w argc argv env).1 = none ∧
    (main w argc argv env).2.trace =
      [Event.setenv "GDK_BACKEND" "wayland" 1 (main_setenv_step w env).1,
       Event.my_application_new (main_setenv_step w env).2.env
         (main_construct_step w env).1,
       Event.g_application_run (main_construct_step w env).2.env
         (main_construct_step w env).1 argc argv]
      ++ (if (w.g_application_run_unwinds (main_construct_step w env).2.env
              (G_APPLICATION (main_construct_step w env).1) argc argv).isSome
          then Event.g_application_run_unwound ::
            (if (main_construct_step w env).1 = NULL then []
             else [Event.g_object_unref (main_construct_step w env).1])
          else []) ∧
    (main w argc argv env).2.trace.countP Event.isSetenv = 1 := by
  have hs : (main w argc argv env).2.trace.countP Event.isSetenv = 1 := by
    rw [List.countP_eq_length_filter,
      main_trace_filter w argc argv env _ (fun _ => rfl) (fun _ => rfl) (fun _ => rfl) rfl]
    rfl
  refine ⟨?_, ?_, hs⟩
  · cases hu : w.g_application_run_unwinds (main_construct_step w env).2.env
        (G_APPLICATION (main_construct_step w env).1) argc argv with
    | none => rw [main_of_stuck w argc argv env h hu]
    | some env1 => rw [main_of_unwound w argc argv env env1 h hu]
  · cases hu : w.g_application_run_unwinds (main_construct_step w env).2.env
        (G_APPLICATION (main_construct_step w env).1) argc argv with
    | none =>
      rw [main_of_stuck w argc argv env h hu]
      simp
    | some env1 =>
      rw [main_of_unwound w argc argv env env1 h hu]
      simp

/-- Witness of C7 (amended): the world whose run loop keeps control; the log
stops at the entry into the run loop. -/
theorem run_loop_never_returns_effects_witness :
    stuckWorld.g_application_run (main_construct_step stuckWorld x11Env).2.env
        (G_APPLICATION (main_construct_step stuckWorld x11Env).1)
        1 ["kolibri"] = none ∧
    (main stuckWorld 1 ["kolibri"] x11Env).2.trace =
      [Event.setenv "GDK_BACKEND" "wayland" 1 0,
       Event.my_application_new waylandEnv 7,
       Event.g_application_run waylandEnv 7 1 ["kolibri"]] ∧
    ((main stuckWorld 1 ["kolibri"] x11Env).1 = none ∧
     (main stuckWorld 1 ["kolibri"] x11Env).2.trace =
       [Event.setenv "GDK_BACKEND" "wayland" 1 (main_setenv_step stuckWorld x11Env).1,
        Event.my_application_new (main_setenv_step stuckWorld x11Env).2.env
          (main_construct_step stuckWorld x11Env).1,
        Event.g_application_run (main_construct_step stuckWorld x11Env).2.env
          (main_construct_step stuckWorld x11Env).1 1 ["kolibri"]]
       ++ (if (stuckWorld.g_application_run_unwinds
                (main_construct_step stuckWorld x11Env).2.env
                (G_APPLICATION (main_construct_step stuckWorld x11Env).1)
                1 ["kolibri"]).isSome
           then Event.g_application_run_unwound ::
             (if (main_construct_step stuckWorld x11Env).1 = NULL then []
              else [Event.g_object_unref (main_construct_step stuckWorld x11Env).1])
           else []) ∧
     (main stuckWorld 1 ["kolibri"] x11Env).2.trace.countP Event.isSetenv = 1) :=
  ⟨by decide, by decide,
   run_loop_never_returns_effects stuckWorld 1 ["kolibri"] x11Env (by decide)⟩

/-- Counterexample to C7 as stated: the run loop never returns but is left by
forced unwinding of the stack; `main` does not return, and yet object `7` is
released by the scope-exit cleanup, with no return of the run loop before. -/
theorem release_without_return_counterexample :
    unwindingWorld.g_application_run
        (main_construct_step unwindingWorld x11Env).2.env
        (G_APPLICATION (main_construct_step unwindingWorld x11Env).1)
        1 ["kolibri"] = none ∧
    (main unwindingWorld 1 ["kolibri"] x11Env).1 = none ∧
    (main unwindingWorld 1 ["kolibri"] x11Env).2.trace =
      [Event.setenv "GDK_BACKEND" "wayland" 1 0,
       Event.my_application_new waylandEnv 7,
       Event.g_application_run waylandEnv 7 1 ["kolibri"],
       Event.g_application_run_unwound,
       Event.g_object_unref 7] ∧
    (main unwindingWorld 1 ["kolibri"] x11Env).2.trace.countP Event.isUnref = 1 := by
  decide

/-! ## The entry point: failures of its own steps -/

/-- C8: for every world, so for a `setenv` that fails as well as for one that
succeeds and for every pointer the constructor may return (null included),
`main` calls `setenv`, then the constructor, then the run loop with the
constructor's pointer and the unchanged `argc` and `argv`, and the result of
`main` is the result of that run-loop call; the status of `setenv`, which is
`-1` or `0` by memory outcome, appears in the log only. -/
theorem main_ignores_step_failures (w : World) (argc : Int) (argv : List String)
    (env : Env) :
    (main_setenv_step w env).1 = (if w.enomem then -1 else 0) ∧
    (main w argc argv env).2.trace.take 3 =
      [Event.setenv "GDK_BACKEND" "wayland" 1 (main_setenv_step w env).1,
       Event.my_application_new (main_setenv_step w env).2.env
         (w.my_application_new (main_setenv_step w env).2.env).1,
       Event.g_application_run (main_construct_step w env).2.env
         (w.my_application_new (main_setenv_step w env).2.env).1 argc argv] ∧
    (main w argc argv env).1 =
      (w.g_application_run (main_construct_step w env).2.env
        (w.my_application_new (main_setenv_step w env).2.env).1 argc argv).map
          Prod.fst := by
  refine ⟨?_, main_trace_take3 w argc argv env, ?_⟩
  · simp only [main_setenv_step, call_setenv, setenv_gdk_backend]
    cases w.enomem <;> rfl
  · cases h : w.g_application_run (main_construct_step w env).2.env
        (G_APPLICATION (main_construct_step w env).1) argc argv with
    | none =>
      have h1 : (main w argc argv env).1 = none := by
        cases hu : w.g_application_run_unwinds (main_construct_step w env).2.env
            (G_APPLICATION (main_construct_step w env).1) argc argv with
        | none => rw [main_of_stuck w argc argv env h hu]
        | some env1 => rw [main_of_unwound w argc argv env env1 h hu]
      rw [h1]
      have h2 := h
      simp only [G_APPLICATION, main_construct_step, call_my_application_new] at h2
      simp only [main_construct_step, call_my_application_new]
      rw [h2]
      rfl
    | some q =>
      obtain ⟨status, env1⟩ := q
      rw [main_of_returned w argc argv env status env1 h]
      have h2 := h
      simp only [G_APPLICATION, main_construct_step, call_my_application_new] at h2
      simp only [main_construct_step, call_my_application_new]
      rw [h2]
      rfl

/-! ## The entry point: the rest of the environment -/

/-- C9: for every initial environment and every variable name other than
`GDK_BACKEND`, the environment after the `setenv` statement of `main` reads
that name exactly as the initial environment does (same value, or absent in
both), whether the call succeeds or fails; and `main` makes exactly one
`setenv` call in a run, the one on `GDK_BACKEND`. -/
theorem setenv_step_keeps_other_variables (w : World) (argc : Int)
    (argv : List String) (env : Env) (name : String) (h : name ≠ "GDK_BACKEND") :
    getenv (main_setenv_step w env).2.env name = getenv env name ∧
    (main w argc argv env).2.trace.filter Event.isSetenv =
      [Event.setenv "GDK_BACKEND" "wayland" 1 (main_setenv_step w env).1] ∧
    (main w argc argv env).2.trace.countP Event.isSetenv = 1 := by
  have hf : (main w argc argv env).2.trace.filter Event.isSetenv =
      [Event.setenv "GDK_BACKEND" "wayland" 1 (main_setenv_step w env).1] := by
    rw [main_trace_filter w argc argv env _ (fun _ => rfl) (fun _ => rfl) (fun _ => rfl) rfl]
    rfl
  refine ⟨?_, hf, ?_⟩
  · simp only [main_setenv_step, call_setenv, emit, setenv_gdk_backend]
    cases w.enomem
    · simpa using getenv_envStore_other env "GDK_BACKEND" "wayland" name h
    · simp
  · rw [List.countP_eq_length_filter, hf]
    rfl

/-- Witness of C9: `HOME` keeps its value while `GDK_BACKEND` is overwritten. -/
theorem setenv_step_keeps_other_variables_witness :
    "HOME" ≠ "GDK_BACKEND" ∧
    (getenv (main_setenv_step (quietWorld 0) x11Env).2.env "HOME"
        = getenv x11Env "HOME" ∧
     (main (quietWorld 0) 1 ["kolibri"] x11Env).2.trace.filter Event.isSetenv =
       [Event.setenv "GDK_BACKEND" "wayland" 1
          (main_setenv_step (quietWorld 0) x11Env).1] ∧
     (main (quietWorld 0) 1 ["kolibri"] x11Env).2.trace.countP Event.isSetenv = 1) :=
  ⟨by decide,
   setenv_step_keeps_other_variables (quietWorld 0) 1 ["kolibri"] x11Env "HOME"
     (by decide)⟩

end KolibriRunner
